import Mathlib

/-!
Verification of the content-automation pipeline: a shallow embedding of the
idea parser, the brief-post parser, the pillar lookup, the prompt renderers
and the two UI action handlers, together with theorems settling the spec
claims about them.

Python strings are modelled as Lean `String`s (with `List Char` used
internally); Python dict records with optional keys are modelled as
structures of `Option` fields; code that can raise returns `Except`.
The remote completion service is modelled as an oracle function from the
rendered prompt to either a response text or a raised error.
-/

namespace ContentAutomation

/-! ## Python string primitives -/

/-- The characters Python `str.strip`, and `\s` in a regex, treat as
whitespace (ASCII range). -/
def isPySpace (c : Char) : Bool :=
  c = ' ' || c = '\t' || c = '\n' || c = '\r' || c = '\x0b' || c = '\x0c'

/-- Strip leading and trailing whitespace from a character list. -/
def stripChars (l : List Char) : List Char :=
  ((l.dropWhile isPySpace).reverse.dropWhile isPySpace).reverse

/-- Python `str.strip()`. -/
def pyStrip (s : String) : String :=
  String.mk (stripChars s.toList)

/-- Python `str.lower()` (ASCII). -/
def pyLower (s : String) : String :=
  String.mk (s.toList.map Char.toLower)

/-- Does `p` occur at the head of `l`? -/
def leadsWith : List Char → List Char → Bool
  | [], _ => true
  | _ :: _, [] => false
  | p :: ps, c :: cs => p = c && leadsWith ps cs

/-- Python `pat in s` on character lists: `pat` occurs contiguously in `l`. -/
def containsSubstr (pat : List Char) : List Char → Bool
  | [] => pat.isEmpty
  | c :: rest => leadsWith pat (c :: rest) || containsSubstr pat rest

/-- Python `s.split(sep)` for the one-character separator `\n`,
accumulator form: always returns at least one piece. -/
def splitNLAux (acc : List Char) : List Char → List (List Char)
  | [] => [acc.reverse]
  | c :: rest =>
    if c = '\n' then acc.reverse :: splitNLAux [] rest
    else splitNLAux (c :: acc) rest

/-- Python `s.split('\n')`. -/
def splitNL (s : String) : List String :=
  (splitNLAux [] s.toList).map String.mk

/-- Python `s.split('\n\n')`, accumulator form (non-overlapping,
left-to-right, like `str.split` with a two-character separator). -/
def splitDNLAux (acc : List Char) : List Char → List (List Char)
  | [] => [acc.reverse]
  | '\n' :: '\n' :: rest => acc.reverse :: splitDNLAux [] rest
  | c :: rest => splitDNLAux (c :: acc) rest

/-- Python `s.split('\n\n')`. -/
def splitDNL (s : String) : List String :=
  (splitDNLAux [] s.toList).map String.mk

/-- The characters after the first occurrence of `c` (unspecified when `c`
is absent; guarded by `contains` at the call site). -/
def afterFirst (c : Char) : List Char → List Char
  | [] => []
  | x :: rest => if x = c then rest else afterFirst c rest

/-- Python `s.split(c, 1)[-1]`: the text after the first occurrence of `c`,
or all of `s` when `c` does not occur. -/
def pySplitAfter (c : Char) (s : String) : String :=
  if s.toList.contains c then String.mk (afterFirst c s.toList) else s

/-- Python `' '.join(parts)`. -/
def joinSp (parts : List String) : String :=
  String.intercalate " " parts

/-! ## The Idea record and the idea parser (`IdeaGenerator._parse_ideas`) -/

/-- A parsed idea: the Python dict with optional keys `title`,
`description`, `hook`; `none` models an absent key. -/
structure Idea where
  title : Option String
  description : Option String
  hook : Option String
deriving Repr, DecidableEq

/-- Python dict falsiness: the record has no keys at all. -/
def Idea.isEmpty (i : Idea) : Bool :=
  i.title.isNone && i.description.isNone && i.hook.isNone

/-- The empty record `{}`. -/
def emptyIdea : Idea := ⟨none, none, none⟩

/-- The parser's `current_section` variable (`None` initially). -/
inductive Sec where
  | none
  | title
  | description
  | hook
deriving Repr, DecidableEq

/-- The loop state of `_parse_ideas`: emitted records, the accumulating
record, the current section and the line buffer `current_text`. -/
structure PState where
  ideas : List Idea
  cur : Idea
  sec : Sec
  buf : List String
deriving Repr, DecidableEq

/-- `line[0].isdigit() and ('.' in line[:3] or ')' in line[:3])` —
a record-start marker (the line is already stripped and non-blank). -/
def isRecordStart (line : String) : Bool :=
  match line.toList with
  | [] => false
  | c :: _ =>
    c.isDigit &&
      ((line.toList.take 3).contains '.' || (line.toList.take 3).contains ')')

/-- `'hook' in line.lower() or 'angle' in line.lower()` — a hook-section
marker. -/
def isHookMarker (line : String) : Bool :=
  containsSubstr "hook".toList (pyLower line).toList ||
    containsSubstr "angle".toList (pyLower line).toList

/-- `line.split('.', 1)[-1].split(')', 1)[-1].strip()` — the title text
extracted from a record-start line. -/
def extractTitle (line : String) : String :=
  pyStrip (pySplitAfter ')' (pySplitAfter '.' line))

/-- The flush applied to the in-progress record when a record-start marker
is seen: the buffer is committed to the section that was accumulating. -/
def flushSec (cur : Idea) (sec : Sec) (buf : List String) : Idea :=
  match sec with
  | Sec.description => { cur with description := some (joinSp buf) }
  | Sec.hook => { cur with hook := some (joinSp buf) }
  | _ => cur

/-- One iteration of the `for line in lines` loop of `_parse_ideas`. -/
def stepLine (st : PState) (rawLine : String) : PState :=
  let line := pyStrip rawLine
  if line = "" then st
  else if isRecordStart line then
    let ideas := if st.cur.isEmpty then st.ideas
      else st.ideas ++ [flushSec st.cur st.sec st.buf]
    let t := extractTitle line
    { ideas := ideas
      cur := if t = "" then emptyIdea else ⟨some t, none, none⟩
      sec := Sec.title
      buf := [] }
  else if isHookMarker line then
    let cur :=
      if st.cur.isEmpty = false ∧ st.buf ≠ [] then
        { st.cur with description := some (joinSp st.buf) }
      else st.cur
    { st with cur := cur, buf := [], sec := Sec.hook }
  else if st.cur.isEmpty = false then
    let buf := st.buf ++ [line]
    if st.sec = Sec.title ∧ st.cur.title = Option.none then
      { st with cur := { st.cur with title := some line }
                sec := Sec.description
                buf := buf }
    else { st with buf := buf }
  else st

/-- The `# Save last idea` block at the end of the loop. -/
def finalize (st : PState) : List Idea :=
  if st.cur.isEmpty then st.ideas
  else
    let cur :=
      if st.buf ≠ [] then
        if st.sec = Sec.hook then { st.cur with hook := some (joinSp st.buf) }
        else if st.cur.description = Option.none then
          { st.cur with description := some (joinSp st.buf) }
        else st.cur
      else st.cur
    st.ideas ++ [cur]

/-- `IdeaGenerator._parse_ideas`: the primary line-oriented pass, then the
blank-line paragraph fallback when the primary pass emitted nothing.
(In the fallback, the source's `lines[0] if lines else f"Idea i"` sits
under an `if lines:` guard, so only the `lines[0]` arm is reachable.) -/
def parse_ideas (ideas_text : String) : List Idea :=
  let lines := splitNL (pyStrip ideas_text)
  let st := lines.foldl stepLine ⟨[], emptyIdea, Sec.none, []⟩
  let ideas := finalize st
  if ideas = [] then
    (splitDNL ideas_text).take 7 |>.filterMap (fun part =>
      match (splitNL part).map pyStrip |>.filter (fun l => l ≠ "") with
      | [] => Option.none
      | t :: rest =>
        some ⟨some t, some (if rest = [] then "" else joinSp rest), some ""⟩)
  else ideas

/-! ## The brief-post parser (`BriefPostGenerator._parse_brief_posts`)

The parser uses the regex `^\d+[\.\)]\s*` in `MULTILINE` mode, once with
`re.split` and once with `re.sub`.  A match is anchored at a line start
(position 0, or just after a `\n` — which, because `\s*` is greedy and may
itself consume newlines, must be tracked across a match). -/

/-- Drop a maximal run of `\s` characters, reporting whether the last
dropped character was a newline (the flag carries the value for an empty
run). -/
def dropSpacesNL (lastNL : Bool) : List Char → List Char × Bool
  | [] => ([], lastNL)
  | c :: rest =>
    if isPySpace c then dropSpacesNL (c = '\n') rest else (c :: rest, lastNL)

/-- Try to match `\d+[\.\)]\s*` at the head of `l`; on success return the
remainder and whether the match ended with a newline (so the next position
is again a line start). -/
def matchNum (l : List Char) : Option (List Char × Bool) :=
  let digits := l.takeWhile Char.isDigit
  if digits.isEmpty then Option.none
  else
    match l.drop digits.length with
    | '.' :: rest => some (dropSpacesNL false rest)
    | ')' :: rest => some (dropSpacesNL false rest)
    | _ => Option.none

/-- `re.split(r"^\d+[\.\)]\s*", text, flags=re.MULTILINE)`, scanning left
to right with a fuel bound (each step consumes at least one character, so
`fuel = length + 1` never runs out). -/
def reSplitNumF : Nat → Bool → List Char → List Char → List (List Char)
  | 0, _, acc, _ => [acc.reverse]
  | fuel + 1, lineStart, acc, l =>
    match (if lineStart then matchNum l else Option.none) with
    | some (rem, endNL) => acc.reverse :: reSplitNumF fuel endNL [] rem
    | Option.none =>
      match l with
      | [] => [acc.reverse]
      | c :: rest => reSplitNumF fuel (c = '\n') (c :: acc) rest

/-- The `re.split` pass over a string. -/
def reSplitNum (s : String) : List String :=
  (reSplitNumF (s.toList.length + 1) true [] s.toList).map String.mk

/-- `re.sub(r"^\d+[\.\)]\s*", "", text, flags=re.MULTILINE)`: remove every
line-start numeral match. -/
def reSubNumF : Nat → Bool → List Char → List Char → List Char
  | 0, _, acc, _ => acc.reverse
  | fuel + 1, lineStart, acc, l =>
    match (if lineStart then matchNum l else Option.none) with
    | some (rem, endNL) => reSubNumF fuel endNL acc rem
    | Option.none =>
      match l with
      | [] => acc.reverse
      | c :: rest => reSubNumF fuel (c = '\n') (c :: acc) rest

/-- The `re.sub` pass over a string. -/
def reSubNum (s : String) : String :=
  String.mk (reSubNumF (s.toList.length + 1) true [] s.toList)

/-- The keep filter shared by both passes:
`if part and len(part) > 20: posts.append(part)`. -/
def keepLong (p : String) : Option String :=
  if p ≠ "" ∧ 20 < p.length then some p else Option.none

/-- `BriefPostGenerator._parse_brief_posts`: the numbered-split primary
pass; if it kept fewer than `expected_count` segments, the blank-line
fallback pass (strip each paragraph, then remove line-start numerals);
finally truncate to `expected_count`. -/
def parse_brief_posts (posts_text : String) (expected_count : Nat) : List String :=
  let posts := (reSplitNum posts_text).filterMap (fun sec => keepLong (pyStrip sec))
  let posts :=
    if posts.length < expected_count then
      (splitDNL posts_text).filterMap (fun part => keepLong (reSubNum (pyStrip part)))
    else posts
  posts.take expected_count

/-! ## Pillar lookup -/

/-- A day's entry in the `content_pillars` mapping: a dict whose keys
`name`, `description`, `alternative` may each be absent.  The
`alternative` value is only ever tested for presence, so it is modelled
as an optional unit. -/
structure PillarData where
  name : Option String
  description : Option String
  alternative : Option Unit
deriving Repr, DecidableEq

/-- The loaded `content_pillars.yaml` document: a mapping from day name to
pillar data. -/
structure PillarsConfig where
  content_pillars : List (String × PillarData)
deriving Repr, DecidableEq

/-- A resolved pillar, as returned to callers. -/
structure Pillar where
  name : String
  description : String
deriving Repr, DecidableEq

/-- `IdeaGenerator._get_day_pillar`: normalise the day to lowercase
(defaulting to the current day `today` when `none`), look it up with a
`{}` default, and resolve the (dead in practice) Friday-alternative branch,
whose bare `pillar_data['name']` subscripts can raise `KeyError`. -/
def get_day_pillar (pillars : PillarsConfig) (day_name : Option String)
    (today : String) : Except String Pillar :=
  let d :=
    match day_name with
    | Option.none => pyLower today
    | some s => pyLower s
  let pd := ((pillars.content_pillars.lookup d).getD ⟨Option.none, Option.none, Option.none⟩)
  if d = "friday" ∧ pd.alternative.isSome then
    match pd.name, pd.description with
    | some n, some de => Except.ok ⟨n, de⟩
    | _, _ => Except.error "KeyError"
  else Except.ok ⟨pd.name.getD "", pd.description.getD ""⟩

/-- `BriefPostGenerator._get_day_pillar`: same logic, but the day always
comes from the current date. -/
def brief_get_day_pillar (pillars : PillarsConfig) (today : String) :
    Except String Pillar :=
  let d := pyLower today
  let pd := ((pillars.content_pillars.lookup d).getD ⟨Option.none, Option.none, Option.none⟩)
  if d = "friday" ∧ pd.alternative.isSome then
    match pd.name, pd.description with
    | some n, some de => Except.ok ⟨n, de⟩
    | _, _ => Except.error "KeyError"
  else Except.ok ⟨pd.name.getD "", pd.description.getD ""⟩

/-! ## Prompt rendering and the two generators

`generate_ideas` and `generate_brief_posts` render a prompt and send it to
the completion service; the service is modelled as an oracle from the
rendered prompt to either a response text or a raised error. -/

/-- `idea_generation_prompt.format(...)`: the template literal from
`prompts/idea_generation_prompt.py` with its three placeholders filled
(the `exactly7` typo is in the source). -/
def idea_prompt_format (pillar_name pillar_description additional_context : String) : String :=
  "You are helping a freelance ML engineer generate LinkedIn content ideas. \n\nCONTENT PILLAR FOR TODAY:\nTopic: " ++
    pillar_name ++
    "\nDescription: " ++
    pillar_description ++
    "\n\nADDITIONAL CONTEXT:\n" ++
    additional_context ++
    "\n\nVOICE PROFILE:\nThe content should reflect these characteristics:\n- Dry humor, sarcasm, or satirical angles when appropriate: subtle, understated wit that doesn\x27t announce itself\n- Technical credibility: grounded in real ML engineering experience\n- Freelance perspective: independent voice, not corporate speak\n\nTONE:\n- Primary: Conversational and authentic\n- Secondary: Slightly irreverent but professional\n- Avoid: Overly enthusiastic language, corporate jargon, pretentious academic tone\n\nCONTENT PHILOSOPHY:\n- Real experience over theory\n- Practical insights from building actual products\n- Honest about challenges and failures\n- Critical but constructive perspective on AI trends\n\nTASK:\nGenerate exactly7 content ideas for a LinkedIn post that:\n1. Align with today\x27s content pillar\n2. Would appeal to an audience of ML engineers, AI practitioners, and tech professionals\n3. Have potential for engaging hooks that match the voice profile (only if appropriate based on the additional context)\n4. Are specific enough to be actionable but broad enough to be interesting\n\nFor each idea, provide:\n- A brief title/headline (1 line)\n- A 1-2 sentence description of what the post would cover\n- A potential hook angle (how it could start, showing the voice style)\n\nFormat your response as a numbered list, with each idea clearly separated.\n"

/-- `brief_post_generation_prompt.format(...)`: the template literal from
`prompts/brief_post_generation_prompt.py` with its three placeholders
filled. -/
def brief_prompt_format (idea_title pillar_name pillar_description : String) : String :=
  "You are helping a freelance ML engineer create LinkedIn content. Generate 5 brief versions of a LinkedIn post based on the selected idea. \n\nSELECTED IDEA:\nTitle: " ++
    idea_title ++
    "\n\nCONTENT PILLAR:\nTopic: " ++
    pillar_name ++
    "\nDescription: " ++
    pillar_description ++
    "\n\nTASK:\nGenerate exactly 5 BRIEF versions of this LinkedIn post. Each version should be:\n- Short and concise (approximately 3-5 sentences or 100-200 words)\n- Different in approach, angle, or style from the others\n\nNote, do not generate the full post, just short snippets/summaries of the post. \nThese are PREVIEW versions - they should give a sense of what the full post would be like, but be brief enough to quickly compare different approaches.\n\nFormat your response as a numbered list (1-5), with each brief post clearly separated by blank lines.\n"

/-- The completion service, as seen by the generators: rendered prompt in,
response text or raised error out. -/
def Oracle := String → Except String String

/-- `IdeaGenerator.generate_ideas`: resolve the pillar, render the prompt
(with the conditional `ADDITIONAL CONTEXT` block), call the service, and
parse the response.  `num_ideas` is accepted but never used by the source. -/
def generate_ideas (pillars : PillarsConfig) (num_ideas : Nat)
    (day_name : Option String) (context : Option String) (today : String)
    (oracle : Oracle) : Except String (List Idea) :=
  match get_day_pillar pillars day_name today with
  | Except.error e => Except.error e
  | Except.ok pillar =>
    let additional_context :=
      match context with
      | some c =>
        if c ≠ "" ∧ pyStrip c ≠ "" then
          "ADDITIONAL CONTEXT:\n" ++ pyStrip c ++ "\n"
        else ""
      | Option.none => ""
    let prompt := idea_prompt_format pillar.name pillar.description additional_context
    match oracle prompt with
    | Except.error e => Except.error e
    | Except.ok ideas_text => Except.ok (parse_ideas ideas_text)

/-- `BriefPostGenerator.generate_brief_posts`: resolve today's pillar,
render the prompt from the idea's title (`idea.get('title', '')`), call the
service, and parse the response. -/
def generate_brief_posts (pillars : PillarsConfig) (today : String)
    (idea : Idea) (num_versions : Nat) (oracle : Oracle) :
    Except String (List String) :=
  match brief_get_day_pillar pillars today with
  | Except.error e => Except.error e
  | Except.ok pillar =>
    let prompt := brief_prompt_format (idea.title.getD "") pillar.name pillar.description
    match oracle prompt with
    | Except.error e => Except.error e
    | Except.ok posts_text => Except.ok (parse_brief_posts posts_text num_versions)

/-! ## The Streamlit action handlers (`app.py`)

Session state and the two user actions.  In `app.py`, the select handler
invokes `generate_brief_posts(idea=..., num_versions=5, day_name=...,
context=...)`; Python binds keyword arguments against the callee's
parameter list `(self, idea, num_versions)`, raising `TypeError` when a
supplied keyword is not a parameter name.  That binding step is modelled
explicitly so the handler's control flow matches CPython's. -/

/-- The keyword-capable parameter names of
`BriefPostGenerator.generate_brief_posts` (besides `self`). -/
def generate_brief_posts_params : List String := ["idea", "num_versions"]

/-- The keyword arguments `app.py` supplies at the select-idea call site. -/
def app_select_kwargs : List String := ["idea", "num_versions", "day_name", "context"]

/-- CPython keyword binding: every supplied keyword must name a parameter. -/
def kwargsBind (params supplied : List String) : Bool :=
  supplied.all (fun k => params.contains k)

/-- The select handler's call expression: when the keywords bind, the call
proceeds to `generate_brief_posts`; otherwise CPython raises `TypeError`
before the function body (and hence the completion service) is reached. -/
def app_brief_posts_call (pillars : PillarsConfig) (today : String)
    (idea : Idea) (oracle : Oracle) : Except String (List String) :=
  if kwargsBind generate_brief_posts_params app_select_kwargs then
    generate_brief_posts pillars today idea 5 oracle
  else
    Except.error "TypeError: generate_brief_posts() got an unexpected keyword argument day_name"

/-- The Streamlit session state fields touched by the two actions. -/
structure AppState where
  ideas : List Idea
  selected_idea : Option Idea
  selected_day : String
  context : String
  brief_posts : List String
deriving Repr, DecidableEq

/-- `context = st.session_state.context.strip() if st.session_state.context
else None`. -/
def app_context (s : AppState) : Option String :=
  if s.context ≠ "" then some (pyStrip s.context) else Option.none

/-- The Generate-Ideas button handler: on success replace `ideas`, clear
`selected_idea` and `brief_posts`; on a raised error leave the state as it
was and surface one error string. -/
def generate_ideas_action (pillars : PillarsConfig) (today : String)
    (s : AppState) (oracle : Oracle) : AppState × Option String :=
  match generate_ideas pillars 7 (some (pyLower s.selected_day)) (app_context s) today oracle with
  | Except.ok ideas =>
    ({ s with ideas := ideas, selected_idea := Option.none, brief_posts := [] }, Option.none)
  | Except.error e => (s, some ("Error generating ideas: " ++ toString e))

/-- The per-idea select handler: `selected_idea` and `brief_posts` are
assigned before the `try` block, then the generation call runs; on success
`brief_posts` is filled, on a raised error only the error string is added
(the two pre-`try` assignments stay). -/
def select_idea_action (pillars : PillarsConfig) (today : String)
    (s : AppState) (idea : Idea) (oracle : Oracle) : AppState × Option String :=
  let s1 := { s with selected_idea := some idea, brief_posts := [] }
  match app_brief_posts_call pillars today idea oracle with
  | Except.ok posts => ({ s1 with brief_posts := posts }, Option.none)
  | Except.error e => (s1, some ("Error generating brief posts: " ++ toString e))

/-! ## Concrete inputs used by the claims -/

/-- The raw text of the spec's two-record parsing scenario. -/
def c3raw : String :=
  "1. Idea A\nDescription line.\nHook: snarky opener\n\n2. Idea B\nAnother desc.\n"

/-- A numbered line with no title text, followed by candidate title and
description lines. -/
def c4raw : String := "1.\nMy Title\nA description line here."

/-- A record-start line whose title text contains a parenthesis. -/
def c5raw : String := "1. Costs (and benefits) of AI"

/-- A raw text for the brief-post parser whose fallback pass keeps a
segment with a trailing newline: 20 copies of `a`, a newline, and `1.`. -/
def c7raw : String := "aaaaaaaaaaaaaaaaaaaa\n1."

/-- A response with eight numbered records. -/
def c9raw : String := "1. a\n2. b\n3. c\n4. d\n5. e\n6. f\n7. g\n8. h"

/-- A session state holding brief posts from an earlier select action. -/
def c2state : AppState :=
  ⟨[], Option.none, "monday", "", ["a previously generated brief post"]⟩

/-- An idea record as clicked in the UI. -/
def c2idea : Idea := ⟨some "T", Option.none, Option.none⟩

/-- An idea record whose `title` key is present with a non-empty value. -/
def titled (i : Idea) : Prop := ∃ t, i.title = some t ∧ t ≠ ""

/-- The loop invariant of `_parse_ideas`: every emitted record is titled,
and the accumulating record, once non-empty, is titled. -/
def InvP (st : PState) : Prop :=
  (∀ i ∈ st.ideas, titled i) ∧ (st.cur.isEmpty = false → titled st.cur)

end ContentAutomation

namespace ContentAutomation

/-! ## C3 — the spec's two-record parsing scenario -/

/-- **C3, counterexample.** On the scenario text, no parsed record carries
`hook = "snarky opener"`: the text on the `Hook:` marker line itself is
discarded, so the claimed first record `{title: "Idea A", description:
"Description line.", hook: "snarky opener"}` is not produced. -/
theorem c3_counterexample :
    ¬ ∃ i ∈ parse_ideas c3raw, i.hook = some "snarky opener" := by
  decide

/-- **C3, amended.** The scenario text parses to exactly two records:
`{title: "Idea A", description: "Description line.", hook: ""}` — the hook
key is present but empty, because a hook marker line's own text is
discarded and only subsequent lines (here none) are joined into the hook —
and `{title: "Idea B", description: "Another desc."}` with no hook key. -/
theorem c3_amended :
    parse_ideas c3raw =
      [⟨some "Idea A", some "Description line.", some ""⟩,
       ⟨some "Idea B", some "Another desc.", Option.none⟩] := by
  decide

/-! ## C4 — lines after a title-less numbered line -/

/-- **C4, counterexample.** For `"1.\nMy Title\nA description line
here."`, the primary pass does not yield a record titled `"My Title"`:
no record in the output carries that title at all. -/
theorem c4_counterexample :
    ¬ ∃ i ∈ parse_ideas c4raw, i.title = some "My Title" := by
  decide

/-- **C4, amended.** Non-marker lines are buffered only while the
in-progress record is non-empty (the guard is the record's truthiness, not
a record being in progress).  A numbered line with no title text leaves
the record empty, so the following lines are dropped, the primary pass
emits nothing, and the paragraph fallback titles the sole record with the
numbered line `"1."` itself. -/
theorem c4_amended :
    (∀ st : PState, ∀ rawLine : String,
        st.cur.isEmpty = true →
        pyStrip rawLine ≠ "" →
        isRecordStart (pyStrip rawLine) = false →
        isHookMarker (pyStrip rawLine) = false →
        stepLine st rawLine = st) ∧
      parse_ideas c4raw =
        [⟨some "1.", some "My Title A description line here.", some ""⟩] := by
  constructor
  · intro st rawLine hEmpty hNe hRec hHook
    simp [stepLine, hNe, hRec, hHook, hEmpty]
  · decide

/-- **C4, amended, witness.** The per-line lemma instantiated on the empty
initial state and the line `"My Title"`, together with the concrete
fallback output. -/
theorem c4_amended_witness :
    stepLine ⟨[], emptyIdea, Sec.none, []⟩ "My Title" = ⟨[], emptyIdea, Sec.none, []⟩ := by
  exact c4_amended.1 ⟨[], emptyIdea, Sec.none, []⟩ "My Title" (by decide) (by decide)
    (by decide) (by decide)

/-! ## C5 — titles containing `.` or `)` -/

/-- **C5, counterexample.** The line `"1. Costs (and benefits) of AI"`
does not yield the title `"Costs (and benefits) of AI"`: the parser also
splits on the first `)`, so the record's title is `"of AI"`. -/
theorem c5_counterexample :
    ¬ ∃ i ∈ parse_ideas c5raw, i.title = some "Costs (and benefits) of AI" := by
  decide

/-- **C5, amended.** On a record-start line the new record's title is the
text after the first `.` (when present) and then after the first `)` of
that remainder (when present), trimmed — so a title containing `.` or `)`
is truncated, e.g. `"1. Costs (and benefits) of AI"` titles the record
`"of AI"`. -/
theorem c5_amended :
    (∀ st : PState, ∀ rawLine : String,
        pyStrip rawLine ≠ "" →
        isRecordStart (pyStrip rawLine) = true →
        (stepLine st rawLine).cur =
          (if extractTitle (pyStrip rawLine) = "" then emptyIdea
           else ⟨some (extractTitle (pyStrip rawLine)), Option.none, Option.none⟩)) ∧
      extractTitle "1. Costs (and benefits) of AI" = "of AI" ∧
      parse_ideas c5raw = [⟨some "of AI", Option.none, Option.none⟩] := by
  refine ⟨?_, by decide, by decide⟩
  intro st rawLine hNe hRec
  simp [stepLine, hNe, hRec]

/-- **C5, amended, witness.** The step lemma instantiated on the initial
state and the concrete line, with the concrete title equation. -/
theorem c5_amended_witness :
    (stepLine ⟨[], emptyIdea, Sec.none, []⟩ "1. Costs (and benefits) of AI").cur =
      ⟨some "of AI", Option.none, Option.none⟩ := by
  have h := c5_amended.1 ⟨[], emptyIdea, Sec.none, []⟩ "1. Costs (and benefits) of AI"
    (by decide) (by decide)
  simpa using h

/-! ## C6 — inputs with no markers and no blank lines -/

/-- **C6, counterexample.** A single line of plain prose has no numeral
marker and no blank-line separator, yet `parse_ideas` does not return the
empty sequence. -/
theorem c6_counterexample : parse_ideas "plain prose line" ≠ [] := by
  decide

/-! ## C7 — bounds on the brief-post parser output -/

/-- The keep filter only lets through strings longer than 20 characters,
unchanged. -/
theorem keepLong_length {p s : String} (h : keepLong p = some s) :
    20 < s.length := by
  unfold keepLong at h
  split at h
  · rename_i hc
    cases h
    exact hc.2
  · cases h

/-- Every member of a `filterMap` through the keep filter is longer than
20 characters. -/
theorem mem_keepLong_filterMap {α : Type} {g : α → String} {l : List α}
    {s : String} (h : s ∈ l.filterMap (fun a => keepLong (g a))) :
    20 < s.length := by
  rcases List.mem_filterMap.mp h with ⟨a, _, ha⟩
  exact keepLong_length ha

/-- **C7, counterexample.** `parse_brief_posts` can return a string whose
trimmed length is not greater than 20: on `"aaaaaaaaaaaaaaaaaaaa\n1."`
with `expected_count = 1` the fallback pass keeps the segment
`"aaaaaaaaaaaaaaaaaaaa\n"` (21 characters, so it passes the length
filter), whose trailing newline — left behind where the numeral `1.` was
removed — makes its trimmed length exactly 20. -/
theorem c7_counterexample :
    ¬ ∀ s ∈ parse_brief_posts c7raw 1, 20 < (pyStrip s).length := by
  decide

/-- **C7, amended.** For every raw text and every non-negative count `k`,
`parse_brief_posts raw k` returns at most `k` strings, and every returned
string has raw length strictly greater than 20 characters; the primary
pass strips its segments before filtering, but a fallback segment can end
in whitespace left by numeral removal, so only its untrimmed length is
guaranteed to exceed 20. -/
theorem c7_amended (raw : String) (k : Nat) :
    (parse_brief_posts raw k).length ≤ k ∧
      ∀ s ∈ parse_brief_posts raw k, 20 < s.length := by
  unfold parse_brief_posts
  constructor
  · simp [List.length_take]
  · intro s hs
    have hs' := List.take_subset _ _ hs
    split at hs'
    · exact mem_keepLong_filterMap hs'
    · exact mem_keepLong_filterMap hs'

/-- **C7, amended, witness.** The bound instantiated on the concrete
fallback input and count 1. -/
theorem c7_amended_witness :
    (parse_brief_posts c7raw 1).length ≤ 1 ∧
      ∀ s ∈ parse_brief_posts c7raw 1, 20 < s.length :=
  c7_amended c7raw 1

/-! ## C8 — every emitted Idea has a non-empty title -/

/-- Updating `description` keeps a record titled. -/
theorem titled_update_description {i : Idea} (h : titled i) (d : Option String) :
    titled { i with description := d } := h

/-- Updating the hook keeps a record titled. -/
theorem titled_update_hook {i : Idea} (h : titled i) (d : Option String) :
    titled { i with hook := d } := h

/-- The record saved at a record-start marker keeps its title. -/
theorem titled_flushSec {i : Idea} (h : titled i) (sec : Sec) (buf : List String) :
    titled (flushSec i sec buf) := by
  cases sec <;> exact h

/-- `stepLine` on a blank line. -/
theorem stepLine_eq_blank (st : PState) (rawLine : String)
    (h1 : pyStrip rawLine = "") : stepLine st rawLine = st := by
  simp [stepLine, h1]

/-- `stepLine` on a record-start line. -/
theorem stepLine_eq_record (st : PState) (rawLine : String)
    (h1 : pyStrip rawLine ≠ "") (h2 : isRecordStart (pyStrip rawLine) = true) :
    stepLine st rawLine =
      { ideas := if st.cur.isEmpty then st.ideas
          else st.ideas ++ [flushSec st.cur st.sec st.buf]
        cur := if extractTitle (pyStrip rawLine) = "" then emptyIdea
          else ⟨some (extractTitle (pyStrip rawLine)), Option.none, Option.none⟩
        sec := Sec.title
        buf := [] } := by
  simp [stepLine, h1, h2]

/-- `stepLine` on a hook-marker line. -/
theorem stepLine_eq_hook (st : PState) (rawLine : String)
    (h1 : pyStrip rawLine ≠ "") (h2 : isRecordStart (pyStrip rawLine) = false)
    (h3 : isHookMarker (pyStrip rawLine) = true) :
    stepLine st rawLine =
      { st with
          cur := if st.cur.isEmpty = false ∧ st.buf ≠ [] then
              { st.cur with description := some (joinSp st.buf) }
            else st.cur
          buf := []
          sec := Sec.hook } := by
  simp [stepLine, h1, h2, h3]

/-- `stepLine` on an ordinary line while a non-empty record accumulates. -/
theorem stepLine_eq_accum (st : PState) (rawLine : String)
    (h1 : pyStrip rawLine ≠ "") (h2 : isRecordStart (pyStrip rawLine) = false)
    (h3 : isHookMarker (pyStrip rawLine) = false) (h4 : st.cur.isEmpty = false) :
    stepLine st rawLine =
      (if st.sec = Sec.title ∧ st.cur.title = Option.none then
        { st with cur := { st.cur with title := some (pyStrip rawLine) }
                  sec := Sec.description
                  buf := st.buf ++ [pyStrip rawLine] }
      else { st with buf := st.buf ++ [pyStrip rawLine] }) := by
  simp only [stepLine, h1, h2, h3, h4]
  simp

/-- `stepLine` on an ordinary line while the record is still empty. -/
theorem stepLine_eq_skip (st : PState) (rawLine : String)
    (h1 : pyStrip rawLine ≠ "") (h2 : isRecordStart (pyStrip rawLine) = false)
    (h3 : isHookMarker (pyStrip rawLine) = false) (h4 : st.cur.isEmpty = true) :
    stepLine st rawLine = st := by
  simp [stepLine, h1, h2, h3, h4]

/-- `stepLine` preserves the invariant. -/
theorem stepLine_inv {st : PState} (h : InvP st) (rawLine : String) :
    InvP (stepLine st rawLine) := by
  obtain ⟨hIdeas, hCur⟩ := h
  by_cases h1 : pyStrip rawLine = ""
  · rw [stepLine_eq_blank st rawLine h1]
    exact ⟨hIdeas, hCur⟩
  by_cases h2 : isRecordStart (pyStrip rawLine) = true
  · rw [stepLine_eq_record st rawLine h1 h2]
    constructor
    · intro i hi
      by_cases hE : st.cur.isEmpty = true
      · simp only [hE, if_pos] at hi
        exact hIdeas i hi
      · have hE' : st.cur.isEmpty = false := by
          cases hb : st.cur.isEmpty
          · rfl
          · exact absurd hb hE
        rw [if_neg (by simp [hE'])] at hi
        rcases List.mem_append.mp hi with hi | hi
        · exact hIdeas i hi
        · rw [List.mem_singleton.mp hi]
          exact titled_flushSec (hCur hE') st.sec st.buf
    · intro hNe
      by_cases hT : extractTitle (pyStrip rawLine) = ""
      · rw [if_pos hT] at hNe
        simp [emptyIdea, Idea.isEmpty] at hNe
      · rw [if_neg hT]
        exact ⟨extractTitle (pyStrip rawLine), rfl, hT⟩
  have h2' : isRecordStart (pyStrip rawLine) = false := by
    cases hb : isRecordStart (pyStrip rawLine)
    · rfl
    · exact absurd hb h2
  by_cases h3 : isHookMarker (pyStrip rawLine) = true
  · rw [stepLine_eq_hook st rawLine h1 h2' h3]
    refine ⟨hIdeas, ?_⟩
    intro hNe
    by_cases hc : st.cur.isEmpty = false ∧ st.buf ≠ []
    · rw [if_pos hc] at hNe ⊢
      exact titled_update_description (hCur hc.1) _
    · rw [if_neg hc] at hNe ⊢
      exact hCur hNe
  have h3' : isHookMarker (pyStrip rawLine) = false := by
    cases hb : isHookMarker (pyStrip rawLine)
    · rfl
    · exact absurd hb h3
  by_cases h4 : st.cur.isEmpty = false
  · rw [stepLine_eq_accum st rawLine h1 h2' h3' h4]
    have hT := hCur h4
    by_cases h5 : st.sec = Sec.title ∧ st.cur.title = Option.none
    · rcases hT with ⟨t, ht, _⟩
      rw [h5.2] at ht
      cases ht
    · rw [if_neg h5]
      exact ⟨hIdeas, fun _ => hT⟩
  · have h4' : st.cur.isEmpty = true := by
      cases hb : st.cur.isEmpty
      · exact absurd hb h4
      · rfl
    rw [stepLine_eq_skip st rawLine h1 h2' h3' h4']
    exact ⟨hIdeas, hCur⟩

/-- The invariant holds after folding `stepLine` over any line list. -/
theorem foldl_stepLine_inv (lines : List String) {st : PState} (h : InvP st) :
    InvP (lines.foldl stepLine st) := by
  induction lines generalizing st with
  | nil => exact h
  | cons l ls ih => exact ih (stepLine_inv h l)

/-- Every record produced by `finalize` is titled. -/
theorem finalize_titled {st : PState} (h : InvP st) :
    ∀ i ∈ finalize st, titled i := by
  obtain ⟨hIdeas, hCur⟩ := h
  unfold finalize
  by_cases hE : st.cur.isEmpty = true
  · simp only [hE, if_pos]
    exact hIdeas
  · have hE' : st.cur.isEmpty = false := by
      cases hb : st.cur.isEmpty
      · rfl
      · exact absurd hb hE
    have hT := hCur hE'
    rw [if_neg (by simp [hE'])]
    intro i hi
    rcases List.mem_append.mp hi with hi | hi
    · exact hIdeas i hi
    · rw [List.mem_singleton.mp hi]
      by_cases hb : st.buf ≠ []
      · rw [if_pos hb]
        by_cases hs : st.sec = Sec.hook
        · rw [if_pos hs]
          exact titled_update_hook hT _
        · rw [if_neg hs]
          by_cases hd : st.cur.description = Option.none
          · rw [if_pos hd]
            exact titled_update_description hT _
          · rw [if_neg hd]
            exact hT
      · rw [if_neg hb]
        exact hT

/-- Every record produced by the paragraph fallback is titled: its title
is the paragraph's first non-blank line. -/
theorem fallback_titled (ideas_text : String) :
    ∀ i ∈ ((splitDNL ideas_text).take 7 |>.filterMap (fun part =>
        match ((splitNL part).map pyStrip).filter (fun l => l ≠ "") with
        | [] => Option.none
        | t :: rest =>
          some ⟨some t, some (if rest = [] then "" else joinSp rest), some ""⟩)),
      titled i := by
  intro i hi
  rcases List.mem_filterMap.mp hi with ⟨part, _, hpart⟩
  revert hpart
  cases hls : ((splitNL part).map pyStrip).filter (fun l => l ≠ "") with
  | nil => intro hpart; cases hpart
  | cons t rest =>
    intro hpart
    cases hpart
    have ht : t ∈ ((splitNL part).map pyStrip).filter (fun l => l ≠ "") := by
      rw [hls]; exact List.mem_cons_self t rest
    have := List.of_mem_filter ht
    exact ⟨t, rfl, by simpa using this⟩

/-- **C8.** Every Idea record returned by `parse_ideas` — from the primary
pass or from the paragraph fallback — has a present, non-empty title. -/
theorem c8_theorem (ideas_text : String) :
    ∀ i ∈ parse_ideas ideas_text, ∃ t, i.title = some t ∧ t ≠ "" := by
  intro i hi
  have hi' : i ∈ (if finalize ((splitNL (pyStrip ideas_text)).foldl stepLine
        ⟨[], emptyIdea, Sec.none, []⟩) = [] then
      (splitDNL ideas_text).take 7 |>.filterMap (fun part =>
        match ((splitNL part).map pyStrip).filter (fun l => l ≠ "") with
        | [] => Option.none
        | t :: rest =>
          some ⟨some t, some (if rest = [] then "" else joinSp rest), some ""⟩)
    else finalize ((splitNL (pyStrip ideas_text)).foldl stepLine
      ⟨[], emptyIdea, Sec.none, []⟩)) := hi
  split at hi'
  · exact fallback_titled ideas_text i hi'
  · exact finalize_titled
      (foldl_stepLine_inv _ ⟨by simp, by simp [emptyIdea, Idea.isEmpty]⟩) i hi'

/-- **C8, witness.** The invariant instantiated on the one-record input
`"1. Hello"`. -/
theorem c8_witness :
    ∃ t, (Idea.mk (some "Hello") Option.none Option.none).title = some t ∧ t ≠ "" :=
  c8_theorem "1. Hello" ⟨some "Hello", Option.none, Option.none⟩ (by decide)

/-! ## C6, amended theorem — marker-free inputs take the fallback

While no line is a record-start marker, the accumulating record stays the
empty dict and no record is ever emitted, so the primary pass yields zero
records and `parse_ideas` returns exactly the paragraph fallback. -/

/-- A step on a non-record-start line keeps the record empty and the
output list empty. -/
theorem stepLine_no_record {st : PState} (hE : st.cur.isEmpty = true)
    (hI : st.ideas = []) (rawLine : String)
    (hR : isRecordStart (pyStrip rawLine) = false) :
    (stepLine st rawLine).cur.isEmpty = true ∧ (stepLine st rawLine).ideas = [] := by
  by_cases h1 : pyStrip rawLine = ""
  · rw [stepLine_eq_blank st rawLine h1]
    exact ⟨hE, hI⟩
  by_cases h3 : isHookMarker (pyStrip rawLine) = true
  · rw [stepLine_eq_hook st rawLine h1 hR h3]
    refine ⟨?_, hI⟩
    rw [if_neg]
    · exact hE
    · rintro ⟨hc, _⟩
      rw [hE] at hc
      cases hc
  · have h3' : isHookMarker (pyStrip rawLine) = false := by
      cases hb : isHookMarker (pyStrip rawLine)
      · rfl
      · exact absurd hb h3
    rw [stepLine_eq_skip st rawLine h1 hR h3' hE]
    exact ⟨hE, hI⟩

/-- Folding over marker-free lines keeps the record empty and the output
list empty. -/
theorem foldl_no_record (lines : List String) {st : PState}
    (hE : st.cur.isEmpty = true) (hI : st.ideas = [])
    (h : ∀ l ∈ lines, isRecordStart (pyStrip l) = false) :
    (lines.foldl stepLine st).cur.isEmpty = true ∧
      (lines.foldl stepLine st).ideas = [] := by
  induction lines generalizing st with
  | nil => exact ⟨hE, hI⟩
  | cons l ls ih =>
    obtain ⟨hE', hI'⟩ :=
      stepLine_no_record hE hI l (h l (List.mem_cons_self l ls))
    exact ih hE' hI' (fun x hx => h x (List.mem_cons_of_mem l hx))

/-- `finalize` emits nothing from an empty record and empty output list. -/
theorem finalize_empty {st : PState} (hE : st.cur.isEmpty = true)
    (hI : st.ideas = []) : finalize st = [] := by
  unfold finalize
  rw [if_pos hE]
  exact hI

/-- **C6, amended.** For every input in which no line is a numeral
record-start marker, the primary pass yields zero records and
`parse_ideas` returns exactly the paragraph fallback: among the first 7
blank-line paragraphs, one record per paragraph containing a non-blank
line, titled with its first non-blank line, the remaining lines
space-joined as description and an empty hook.  In particular a single
line of plain prose yields one such record, not the empty sequence. -/
theorem c6_amended :
    (∀ ideas_text : String,
        (∀ l ∈ splitNL (pyStrip ideas_text), isRecordStart (pyStrip l) = false) →
        parse_ideas ideas_text =
          ((splitDNL ideas_text).take 7 |>.filterMap (fun part =>
            match ((splitNL part).map pyStrip).filter (fun l => l ≠ "") with
            | [] => Option.none
            | t :: rest =>
              some ⟨some t, some (if rest = [] then "" else joinSp rest), some ""⟩))) ∧
      parse_ideas "plain prose line" =
        [⟨some "plain prose line", some "", some ""⟩] := by
  constructor
  · intro ideas_text h
    have key : finalize ((splitNL (pyStrip ideas_text)).foldl stepLine
        ⟨[], emptyIdea, Sec.none, []⟩) = [] := by
      obtain ⟨hE, hI⟩ :=
        @foldl_no_record (splitNL (pyStrip ideas_text))
          ⟨[], emptyIdea, Sec.none, []⟩ (by decide) rfl h
      exact finalize_empty hE hI
    calc parse_ideas ideas_text
        = (if finalize ((splitNL (pyStrip ideas_text)).foldl stepLine
              ⟨[], emptyIdea, Sec.none, []⟩) = [] then
            ((splitDNL ideas_text).take 7 |>.filterMap (fun part =>
              match ((splitNL part).map pyStrip).filter (fun l => l ≠ "") with
              | [] => Option.none
              | t :: rest =>
                some ⟨some t, some (if rest = [] then "" else joinSp rest), some ""⟩))
          else finalize ((splitNL (pyStrip ideas_text)).foldl stepLine
            ⟨[], emptyIdea, Sec.none, []⟩)) := rfl
      _ = _ := if_pos key
  · decide

/-- **C6, amended, witness.** The fallback equation instantiated on the
marker-free input `"plain prose line"`, its hypothesis discharged by
evaluation. -/
theorem c6_amended_witness :
    parse_ideas "plain prose line" =
      ((splitDNL "plain prose line").take 7 |>.filterMap (fun part =>
        match ((splitNL part).map pyStrip).filter (fun l => l ≠ "") with
        | [] => Option.none
        | t :: rest =>
          some ⟨some t, some (if rest = [] then "" else joinSp rest), some ""⟩)) :=
  c6_amended.1 "plain prose line" (by decide)

/-! ## C9 — the requested idea count is never enforced -/

/-- **C9.** `parse_ideas` is a function of the raw text alone and may
return more than 7 records (the eight-record input returns eight), and
`generate_ideas` returns identical results for any two values of
`num_ideas` when the pillar configuration, day, context, current date and
completion oracle agree: `num_ideas` influences neither the rendered
prompt nor the parsing. -/
theorem c9_theorem :
    (∀ (pillars : PillarsConfig) (day_name : Option String)
        (context : Option String) (today : String) (oracle : Oracle)
        (n1 n2 : Nat),
        generate_ideas pillars n1 day_name context today oracle =
          generate_ideas pillars n2 day_name context today oracle) ∧
      7 < (parse_ideas c9raw).length :=
  ⟨fun _ _ _ _ _ _ _ => rfl, by decide⟩

/-! ## C10 — absent days soft-fail to the empty pillar -/

/-- **C10.** For every pillar configuration and every day name whose
lowercased form is absent from the `content_pillars` mapping,
`get_day_pillar` returns the empty pillar `{name: "", description: ""}`
and never raises (the `Except.error` branch, reachable only through the
Friday-alternative lookup, is not taken). -/
theorem c10_theorem (pillars : PillarsConfig) (day_name today : String)
    (h : pillars.content_pillars.lookup (pyLower day_name) = Option.none) :
    get_day_pillar pillars (some day_name) today = Except.ok ⟨"", ""⟩ := by
  unfold get_day_pillar
  simp [h]

/-- **C10, witness.** The absent key `"blursday"` on the empty
configuration. -/
theorem c10_witness :
    get_day_pillar ⟨[]⟩ (some "blursday") "monday" = Except.ok ⟨"", ""⟩ :=
  c10_theorem ⟨[]⟩ "blursday" "monday" (by decide)

/-! ## C1 — the select action's generation call -/

/-- **C1.** The UI's select-idea invocation is not a valid call: the
keyword arguments `app.py` supplies (`idea`, `num_versions`, `day_name`,
`context`) do not bind against `generate_brief_posts(self, idea,
num_versions)`, so CPython raises `TypeError` before the completion
service is contacted — for every configuration, state, idea and oracle
the select action surfaces the error and stores no brief posts. -/
theorem c1_theorem :
    kwargsBind generate_brief_posts_params app_select_kwargs = false ∧
      ∀ (pillars : PillarsConfig) (today : String) (s : AppState)
        (idea : Idea) (oracle : Oracle),
        select_idea_action pillars today s idea oracle =
          ({ s with selected_idea := some idea, brief_posts := [] },
            some ("Error generating brief posts: " ++
              "TypeError: generate_brief_posts() got an unexpected keyword argument day_name")) :=
  ⟨rfl, fun _ _ _ _ _ => rfl⟩

/-! ## C2 — state committed across failing actions -/

/-- **C2, counterexample.** A select action on a state holding earlier
brief posts ends in the error branch, yet `brief_posts` does not retain
its pre-action value: it was cleared before the `try` block. -/
theorem c2_counterexample :
    (select_idea_action ⟨[]⟩ "monday" c2state c2idea
        (fun _ => Except.error "boom")).2.isSome = true ∧
      (select_idea_action ⟨[]⟩ "monday" c2state c2idea
          (fun _ => Except.error "boom")).1.brief_posts ≠ c2state.brief_posts := by
  decide

/-- **C2, amended.** For the generate-ideas action the claim holds: when
the action does not succeed, the whole session state is unchanged (in
particular `ideas`, `selected_idea` and `brief_posts`) and only the error
message is surfaced.  For the select action, `ideas` is retained, but
`selected_idea` is set to the clicked idea and `brief_posts` is cleared
to `[]` before the generation call, so on failure those two fields do not
retain their pre-action values. -/
theorem c2_amended :
    (∀ (pillars : PillarsConfig) (today : String) (s : AppState) (oracle : Oracle),
        (generate_ideas_action pillars today s oracle).1 = s ∨
          (generate_ideas_action pillars today s oracle).2 = Option.none) ∧
      ∀ (pillars : PillarsConfig) (today : String) (s : AppState)
        (idea : Idea) (oracle : Oracle),
        (select_idea_action pillars today s idea oracle).1.ideas = s.ideas ∧
          (select_idea_action pillars today s idea oracle).1.selected_idea = some idea ∧
          (select_idea_action pillars today s idea oracle).1.brief_posts = [] := by
  constructor
  · intro pillars today s oracle
    rcases hg : generate_ideas pillars 7 (some (pyLower s.selected_day))
        (app_context s) today oracle with e | ideas <;>
      simp [generate_ideas_action, hg]
  · intro pillars today s idea oracle
    exact ⟨rfl, rfl, rfl⟩

end ContentAutomation
